import Mathlib

/-!
Shallow embedding of the dapr proxy routing core (pkg/proxy): identity
parsing (util.go), the transport cache (pool.go), the status registry
(status.go), and the dispatcher / peer-discovery server (server.go).

Strings are modelled as lists of characters so that the Go `strings.Split`
and `strings.Join` operations become structurally recursive functions that
theorems can reason about by induction.
-/

/-- Characters of a Go string, in order. -/
abbrev Str := List Char

/-- Convenience conversion from a Lean string literal to the `Str` model. -/
def strL (s : String) : Str := s.toList

/-- Decimal rendering of a natural number, as produced by `fmt.Sprintf` with
the d verb for a non-negative integer. -/
def natToStr (n : Nat) : Str := (Nat.repr n).toList

/-- Embedding of Go `strings.Split(s, sep)` for a one-character separator:
splits `s` around every occurrence of `sep`; the empty string splits to a
single empty segment, matching Go. -/
def splitOn (sep : Char) : Str → List Str
  | [] => [[]]
  | c :: cs =>
    match splitOn sep cs with
    | [] => []
    | s :: rest => if c = sep then [] :: s :: rest else (c :: s) :: rest

/-- Embedding of Go `strings.Join(parts, sep)` for a one-character
separator. -/
def joinSep (sep : Char) : List Str → Str
  | [] => []
  | [s] => s
  | s :: rest => s ++ sep :: joinSep sep rest

theorem splitOn_ne_nil (sep : Char) (s : Str) : splitOn sep s ≠ [] := by
  induction s with
  | nil => simp [splitOn]
  | cons c cs ih =>
    obtain ⟨x, rest, h⟩ := List.exists_cons_of_ne_nil ih
    simp only [splitOn, h]
    split <;> simp

theorem splitOn_not_mem (sep : Char) (s : Str) (h : sep ∉ s) :
    splitOn sep s = [s] := by
  induction s with
  | nil => rfl
  | cons c cs ih =>
    have hc : ¬ c = sep := fun e => h (e ▸ List.mem_cons_self c cs)
    have hcs : sep ∉ cs := fun m => h (List.mem_cons_of_mem _ m)
    simp only [splitOn, ih hcs]
    simp [hc]

theorem splitOn_append (sep : Char) (a b : Str) :
    splitOn sep (a ++ sep :: b) = splitOn sep a ++ splitOn sep b := by
  induction a with
  | nil =>
    obtain ⟨x, rest, hx⟩ := List.exists_cons_of_ne_nil (splitOn_ne_nil sep b)
    simp [splitOn, hx]
  | cons c cs ih =>
    obtain ⟨x, rest, hx⟩ := List.exists_cons_of_ne_nil (splitOn_ne_nil sep cs)
    have h2 : splitOn sep (cs ++ sep :: b) = x :: (rest ++ splitOn sep b) := by
      rw [ih, hx]; rfl
    by_cases hc : c = sep
    · subst hc
      simp [splitOn, h2, hx]
    · simp [splitOn, h2, hx, hc]

theorem length_splitOn (sep : Char) (s : Str) :
    (splitOn sep s).length = s.count sep + 1 := by
  induction s with
  | nil => simp [splitOn]
  | cons c cs ih =>
    obtain ⟨x, rest, hx⟩ := List.exists_cons_of_ne_nil (splitOn_ne_nil sep cs)
    rw [hx] at ih
    by_cases hc : c = sep
    · subst hc
      simp only [splitOn, hx, if_pos rfl, List.count_cons_self]
      simp at ih ⊢
      omega
    · have hc' : ¬ sep = c := fun e => hc e.symm
      simp only [splitOn, hx, if_neg hc]
      rw [List.count_cons_of_ne hc']
      simp at ih ⊢
      omega

theorem joinSep_splitOn (sep : Char) (s : Str) :
    joinSep sep (splitOn sep s) = s := by
  induction s with
  | nil => rfl
  | cons c cs ih =>
    obtain ⟨x, rest, hx⟩ := List.exists_cons_of_ne_nil (splitOn_ne_nil sep cs)
    rw [hx] at ih
    by_cases hc : c = sep
    · subst hc
      simp only [splitOn, hx, if_pos rfl, joinSep]
      simpa using ih
    · simp only [splitOn, hx, if_neg hc]
      cases rest with
      | nil => simp only [joinSep] at ih ⊢; rw [ih]
      | cons y t =>
        simp only [joinSep] at ih ⊢
        rw [List.cons_append, ih]

theorem joinSep_append_singleton (sep : Char) (l : List Str) (x : Str)
    (h : l ≠ []) : joinSep sep (l ++ [x]) = joinSep sep l ++ sep :: x := by
  induction l with
  | nil => cases h rfl
  | cons s rest ih =>
    cases rest with
    | nil => simp [joinSep]
    | cons y t =>
      have h2 := ih (by simp)
      simp only [List.cons_append, joinSep, List.append_eq] at h2 ⊢
      rw [h2]
      simp

/-- Embedding of `resolvedAppID` from util.go. -/
structure resolvedAppID where
  Original : Str
  Namespace : Str
  AppID : Str
deriving DecidableEq, Repr

/-- Embedding of `resolveTargetAppID` from util.go: split the raw app id on
dots; one segment keeps the caller's namespace, two segments are
`identity.namespace`, anything else is an error carrying the raw string. -/
def resolveTargetAppID (ns original : Str) : Except Str resolvedAppID :=
  match splitOn '.' original with
  | [_] => Except.ok ⟨original, ns, original⟩
  | [a, b] => Except.ok ⟨original, b, a⟩
  | _ => Except.error (strL "invalid app id " ++ original)

deriving instance DecidableEq for Except

/-- Embedding of ServerConfig from server.go. -/
structure ServerConfig where
  ProxyPort : Nat
  ApplicationPort : Nat
  Namespace : Str
  AppID : Str
deriving DecidableEq, Repr

/-- Embedding of ServerStatus from status.go. -/
structure ServerStatus where
  Enabled : Bool
  Port : Nat
deriving DecidableEq, Repr

/-- Embedding of statusMonitor from status.go: the single mutex-guarded
status value. -/
structure statusMonitor where
  status : ServerStatus
deriving DecidableEq, Repr

/-- Embedding of NewStatusMonitor from status.go: the Go zero value of the
statusMonitor struct, whose status field is the zero ServerStatus. -/
def NewStatusMonitor : statusMonitor := ⟨⟨false, 0⟩⟩

/-- Embedding of statusMonitor.SetStatus from status.go: replace the held
value. -/
def statusMonitor.SetStatus (_s : statusMonitor) (st : ServerStatus) :
    statusMonitor := ⟨st⟩

/-- Embedding of statusMonitor.Status from status.go: read the held value. -/
def statusMonitor.Status (s : statusMonitor) : ServerStatus := s.status

/-- External actions performed by the goroutine started by StartNonBlocking,
in program order. -/
inductive StartEvent where
  | setStatus (st : ServerStatus)
  | listenAndServe (port : Nat)
deriving DecidableEq, Repr

/-- Embedding of StartNonBlocking from server.go: the goroutine first calls
s.monitor.SetStatus with enabled true and the configured proxy port, and only
afterwards calls http.ListenAndServe to bind the listener on that port. -/
def StartNonBlocking (cfg : ServerConfig) : List StartEvent :=
  [StartEvent.setStatus ⟨true, cfg.ProxyPort⟩,
   StartEvent.listenAndServe cfg.ProxyPort]

/-- Embedding of the ProxyStatusResponse returned by the GetProxyStatus RPC:
the peer reports whether its proxy is enabled and which port it serves. -/
structure ProxyStatus where
  Enabled : Bool
  Port : Nat
deriving DecidableEq, Repr

/-- Embedding of nr.ResolveRequest as built in roundTripRemote. -/
structure ResolveRequest where
  ID : Str
  Namespace : Str
  Port : Nat
deriving DecidableEq, Repr

/-- Inbound HTTP request: the header map and the URL fields the dispatcher
rewrites. -/
structure Request where
  headers : List (Str × List Str)
  urlScheme : Str
  urlHost : Str
deriving DecidableEq, Repr

/-- Modelled from the spec: daprhttp.ErrorResponse (pkg/http, not among the
given sources) is the JSON error body with fields errorCode and message, and
NewErrorResponse(code, msg) fills them in that order. -/
structure ErrorResponse where
  errorCode : Str
  message : Str
deriving DecidableEq, Repr

/-- Body of a response: either the JSON marshalling of an ErrorResponse (as
built by respondWithError) or opaque bytes from an upstream response. -/
inductive BodyV where
  | json (e : ErrorResponse)
  | raw (s : Str)
deriving DecidableEq, Repr

/-- HTTP response as far as the dispatcher observes or builds it. -/
structure Response where
  StatusCode : Nat
  Header : List (Str × List Str)
  Body : BodyV
deriving DecidableEq, Repr

/-- Embedding of respondWithError from server.go. The source receives the
intended status code as its first argument but writes the literal 400 into
the StatusCode field it builds, so the argument does not influence the
response. -/
def respondWithError (_code : Nat) (e : ErrorResponse) : Response :=
  { StatusCode := 400
    Header := [(strL "Content-Type", [strL "application/json"])]
    Body := BodyV.json e }

/-- External collaborators consumed by the server: name resolution
(resolver.ResolveID), the gRPC connection creator (connectionCreatorFn), the
GetProxyStatus RPC on an open connection, and the generic
http.DefaultTransport.RoundTrip. Conn is the opaque connection type. -/
structure Env (Conn : Type) where
  ResolveID : ResolveRequest → Except Str Str
  connectionCreatorFn : Str → Str → Str → Bool → Bool → Bool → Except Str Conn
  GetProxyStatus : Conn → Except Str ProxyStatus
  defaultRoundTrip : Request → Except Str Response

/-- Embedding of getRemoteProxyAddress from server.go: open a connection to
addr (all three boolean flags false), query GetProxyStatus, fail if the peer
reports itself not enabled, and otherwise replace the final colon-delimited
segment of addr with the peer-reported port. The assignment to the last
element of the split is rendered as dropLast plus a singleton, which is the
same operation on the never-empty result of the split. -/
def getRemoteProxyAddress {Conn : Type} (env : Env Conn)
    (addr appID ns : Str) : Except Str Str :=
  match env.connectionCreatorFn addr appID ns false false false with
  | Except.error e => Except.error e
  | Except.ok conn =>
    match env.GetProxyStatus conn with
    | Except.error e => Except.error e
    | Except.ok status =>
      if status.Enabled then
        Except.ok (joinSep ':' ((splitOn ':' addr).dropLast
          ++ [natToStr status.Port]))
      else
        Except.error (strL "remote proxy is not enabled")

/-- Lookup in a Go map rendered as an association list (first match wins;
keys are never duplicated by construction). -/
def assocLookup {β : Type _} : List (Str × β) → Str → Option β
  | [], _ => none
  | (k, v) :: rest, key => if k = key then some v else assocLookup rest key

/-- External calls made while handling one request, in program order: a name
resolution call, a peer discovery call (getRemoteProxyAddress) against a
resolved address, and a forward of a rewritten request through the generic
transport. -/
inductive Event where
  | resolve (rreq : ResolveRequest)
  | discover (addr : Str)
  | forward (req : Request)
deriving DecidableEq, Repr

/-- True exactly on name-resolution events. -/
def isResolveEvent : Event → Bool
  | Event.resolve _ => true
  | _ => false

/-- True exactly on peer-discovery events. -/
def isDiscoverEvent : Event → Bool
  | Event.discover _ => true
  | _ => false

/-- True exactly on forward events. -/
def isForwardEvent : Event → Bool
  | Event.forward _ => true
  | _ => false

/-- The URL rewrite performed by roundTripLocal: scheme http, host
localhost:<ApplicationPort>. -/
def rwLocal (cfg : ServerConfig) (req : Request) : Request :=
  { req with urlScheme := strL "http"
             urlHost := strL "localhost:" ++ natToStr cfg.ApplicationPort }

/-- Embedding of roundTripLocal from server.go, paired with the trace of
external calls it makes: exactly one forward of the rewritten request
through the generic transport. -/
def roundTripLocal {Conn : Type} (cfg : ServerConfig) (env : Env Conn)
    (req : Request) : Except Str Response × List Event :=
  (env.defaultRoundTrip (rwLocal cfg req), [Event.forward (rwLocal cfg req)])

/-- Embedding of roundTripRemote from server.go, paired with the trace of
external calls it makes: resolve, then on success discover, then on success
forward the rewritten request. -/
def roundTripRemote {Conn : Type} (cfg : ServerConfig) (env : Env Conn)
    (req : Request) (appID : resolvedAppID) :
    Except Str Response × List Event :=
  let rreq : ResolveRequest := ⟨appID.AppID, appID.Namespace, cfg.ProxyPort⟩
  match env.ResolveID rreq with
  | Except.error _ =>
      (Except.ok (respondWithError 400
        ⟨strL "ERR_UNRESOLVED_APPID",
         strL "the appid " ++ appID.Original
           ++ strL " cannot be resolved to a destination"⟩),
       [Event.resolve rreq])
  | Except.ok addr =>
      match getRemoteProxyAddress env addr appID.AppID appID.Namespace with
      | Except.error _ =>
          (Except.ok (respondWithError 500
            ⟨strL "ERR_INTERNAL", strL "DERP"⟩),
           [Event.resolve rreq, Event.discover addr])
      | Except.ok addr2 =>
          (env.defaultRoundTrip
             { req with urlScheme := strL "http", urlHost := addr2 },
           [Event.resolve rreq, Event.discover addr,
            Event.forward { req with urlScheme := strL "http",
                                     urlHost := addr2 }])

/-- The Destination-App-Id header key. -/
def destinationAppId : Str := strL "Destination-App-Id"

/-- Embedding of the server's RoundTrip from server.go, paired with the trace
of external calls it makes. Synthesized error responses are returned as
normal responses (the ok constructor), matching the nil Go error on those
paths. -/
def RoundTrip {Conn : Type} (cfg : ServerConfig) (env : Env Conn)
    (req : Request) : Except Str Response × List Event :=
  match assocLookup req.headers destinationAppId with
  | none =>
      (Except.ok (respondWithError 400
        ⟨strL "ERR_MISSING_APPID",
         strL "the appid must be specified using the Destination-App-Id header"⟩),
       [])
  | some appIDHeader =>
      if appIDHeader.length ≠ 1 ∨ appIDHeader.headD [] = [] then
        (Except.ok (respondWithError 400
          ⟨strL "ERR_MISSING_APPID",
           strL "the appid must be specified using the Destination-App-Id header"⟩),
         [])
      else
        match resolveTargetAppID cfg.Namespace (appIDHeader.headD []) with
        | Except.error _ =>
            (Except.ok (respondWithError 400
              ⟨strL "ERR_MISSING_APPID",
               strL "the appid " ++ appIDHeader.headD []
                 ++ strL " is invalid"⟩),
             [])
        | Except.ok appID =>
            if appID.AppID = cfg.AppID ∧ appID.Namespace = cfg.Namespace then
              roundTripLocal cfg env req
            else
              roundTripRemote cfg env req appID

/-- Embedding of addressProcessor from pool.go. -/
def addressProcessor : Type := Str → Except Str Str

/-- An http.Transport created by the pool: each factory is pinned to dial
the address key it was created for, whatever address it is later passed. -/
structure Transport where
  dialAddr : Str
deriving DecidableEq, Repr

/-- Embedding of pool from pool.go: the map of cached transports (a nil map
and an empty map behave alike under lookup and insert). -/
structure pool where
  transports : List (Str × Transport)
deriving DecidableEq, Repr

/-- Embedding of pool.Get from pool.go: under the mutex, return the cached
transport for addr, creating and storing one on first use. It returns the Go
pair (t, nil): the error component is always ok. The ap argument is unused,
exactly as in the source. -/
def pool.Get (p : pool) (addr : Str) (_ap : addressProcessor) :
    Except Str Transport × pool :=
  match assocLookup p.transports addr with
  | some t => (Except.ok t, p)
  | none => (Except.ok ⟨addr⟩, ⟨(addr, (⟨addr⟩ : Transport)) :: p.transports⟩)

/-- A sequence of further pool.Get calls, threading the cache state. -/
def runGets (p : pool) : List (Str × addressProcessor) → pool
  | [] => p
  | (a, ap) :: rest => runGets (pool.Get p a ap).2 rest

/-! Concrete fixtures used by evaluation theorems and witnesses. -/

/-- Concrete server configuration: proxy port 3500, application port 8080,
namespace default, app id self. -/
def cfg0 : ServerConfig :=
  { ProxyPort := 3500, ApplicationPort := 8080
    Namespace := strL "default", AppID := strL "self" }

/-- A plain 200 upstream response. -/
def okResp : Response :=
  { StatusCode := 200, Header := [], Body := BodyV.raw [] }

/-- Environment in which every collaborator succeeds: resolution yields
10.0.0.5:3500 and the peer reports enabled on port 9000. -/
def envOk : Env Unit :=
  { ResolveID := fun _ => Except.ok (strL "10.0.0.5:3500")
    connectionCreatorFn := fun _ _ _ _ _ _ => Except.ok ()
    GetProxyStatus := fun _ => Except.ok ⟨true, 9000⟩
    defaultRoundTrip := fun _ => Except.ok okResp }

/-- Environment whose peer-status RPC fails at transport level. -/
def envRpcFail : Env Unit :=
  { envOk with GetProxyStatus := fun _ => Except.error (strL "connection refused") }

/-- Environment whose peer answers but reports enabled false. -/
def envDisabled : Env Unit :=
  { envOk with GetProxyStatus := fun _ => Except.ok ⟨false, 0⟩ }

/-- Request whose destination header names the remote app other. -/
def reqOther : Request :=
  { headers := [(strL "Destination-App-Id", [strL "other"])]
    urlScheme := strL "https", urlHost := strL "proxyhost" }

/-- Request whose destination header names the local app self. -/
def reqSelf : Request :=
  { headers := [(strL "Destination-App-Id", [strL "self"])]
    urlScheme := strL "https", urlHost := strL "proxyhost" }

/-- Request with no Destination-App-Id header. -/
def reqNoHeader : Request :=
  { headers := [], urlScheme := strL "https", urlHost := strL "proxyhost" }

/-- An addressProcessor used by witnesses; pool.Get never consults it. -/
def apId : addressProcessor := fun s => Except.ok s

/-! Transport cache lemmas and claims. -/

theorem pool_Get_hit (p : pool) (addr : Str) (r : addressProcessor)
    (t : Transport) (h : assocLookup p.transports addr = some t) :
    pool.Get p addr r = (Except.ok t, p) := by
  unfold pool.Get
  simp only [h]

theorem assocLookup_Get_preserved (p : pool) (a addr : Str)
    (ap : addressProcessor) (t : Transport)
    (h : assocLookup p.transports addr = some t) :
    assocLookup (pool.Get p a ap).2.transports addr = some t := by
  unfold pool.Get
  cases hf : assocLookup p.transports a with
  | some t' => simpa using h
  | none =>
    simp only [assocLookup]
    by_cases hae : a = addr
    · subst hae; rw [h] at hf; cases hf
    · simp [hae, h]

theorem assocLookup_runGets_preserved (calls : List (Str × addressProcessor)) :
    ∀ (p : pool) (addr : Str) (t : Transport),
      assocLookup p.transports addr = some t →
      assocLookup (runGets p calls).transports addr = some t := by
  induction calls with
  | nil => intro p addr t h; exact h
  | cons c rest ih =>
    intro p addr t h
    obtain ⟨a, ap⟩ := c
    exact ih _ _ _ (assocLookup_Get_preserved p a addr ap t h)

/-- C8: the Transport Cache holds at most one connection factory per address
key. After a first Get for an uncached addr creates a factory, every
subsequent Get for addr — with any processor argument and after any
interleaved Gets — returns that same factory and leaves the cache
unchanged. -/
theorem pool_Get_at_most_one_factory (p : pool) (addr : Str)
    (r r' : addressProcessor) (calls : List (Str × addressProcessor))
    (h : assocLookup p.transports addr = none) :
    (pool.Get (runGets (pool.Get p addr r).2 calls) addr r').1
        = (pool.Get p addr r).1 ∧
    (pool.Get (runGets (pool.Get p addr r).2 calls) addr r').2
        = runGets (pool.Get p addr r).2 calls := by
  have h1 : pool.Get p addr r
      = (Except.ok ⟨addr⟩, ⟨(addr, (⟨addr⟩ : Transport)) :: p.transports⟩) := by
    unfold pool.Get
    simp only [h]
  have h2 : assocLookup (pool.Get p addr r).2.transports addr
      = some ⟨addr⟩ := by
    rw [h1]
    simp [assocLookup]
  have h3 := assocLookup_runGets_preserved calls _ _ _ h2
  have h4 := pool_Get_hit _ addr r' _ h3
  rw [h4, h1]
  exact ⟨rfl, rfl⟩

/-- C8 witness: on an empty cache, a first Get for host:1, an interleaved Get
for host:2, and a second Get for host:1 with a different processor return the
identical cached factory. -/
theorem pool_Get_at_most_one_factory_witness :
    (pool.Get (runGets (pool.Get ⟨[]⟩ (strL "host:1") apId).2
        [(strL "host:2", apId)]) (strL "host:1") apId).1
      = (pool.Get (⟨[]⟩ : pool) (strL "host:1") apId).1 :=
  (pool_Get_at_most_one_factory ⟨[]⟩ (strL "host:1") apId apId
    [(strL "host:2", apId)] rfl).1

/-- C10: pool.Get ignores its addressProcessor argument entirely — the same
cache state and address yield the same result for any two processors — and
the error component of its result is always ok, the Go nil error. -/
theorem pool_Get_processor_independent (p : pool) (addr : Str)
    (r1 r2 : addressProcessor) :
    pool.Get p addr r1 = pool.Get p addr r2 ∧
    ∃ t, (pool.Get p addr r1).1 = Except.ok t := by
  refine ⟨rfl, ?_⟩
  unfold pool.Get
  cases h : assocLookup p.transports addr with
  | some t => exact ⟨t, rfl⟩
  | none => exact ⟨⟨addr⟩, rfl⟩

/-! Identity parser claim. -/

/-- C2: parsing a raw identity with caller namespace ns — zero dots keeps the
raw id in the caller's namespace, exactly one dot splits into identity before
the dot and namespace after it, two or more dots fail with an error carrying
the raw string. -/
theorem resolveTargetAppID_spec (ns raw : Str) :
    (('.' : Char) ∉ raw →
        resolveTargetAppID ns raw = Except.ok ⟨raw, ns, raw⟩) ∧
    (∀ a b : Str, raw = a ++ '.' :: b →
        ('.' : Char) ∉ a → ('.' : Char) ∉ b →
        resolveTargetAppID ns raw = Except.ok ⟨raw, b, a⟩) ∧
    (2 ≤ raw.count '.' →
        resolveTargetAppID ns raw
          = Except.error (strL "invalid app id " ++ raw)) := by
  refine ⟨?_, ?_, ?_⟩
  · intro h
    unfold resolveTargetAppID
    rw [splitOn_not_mem _ _ h]
  · intro a b hab ha hb
    unfold resolveTargetAppID
    subst hab
    rw [splitOn_append, splitOn_not_mem _ _ ha, splitOn_not_mem _ _ hb]
    simp
  · intro h
    have hlen : 3 ≤ (splitOn '.' raw).length := by
      rw [length_splitOn]; omega
    unfold resolveTargetAppID
    rcases hx : splitOn '.' raw with _ | ⟨x, _ | ⟨y, _ | ⟨z, rest⟩⟩⟩
    · exact absurd hx (splitOn_ne_nil '.' raw)
    · rw [hx] at hlen; simp at hlen
    · rw [hx] at hlen; simp at hlen
    · rfl

/-- C2 witness: the three parsing behaviors at concrete inputs. -/
theorem resolveTargetAppID_spec_witness :
    resolveTargetAppID (strL "default") (strL "app")
        = Except.ok ⟨strL "app", strL "default", strL "app"⟩ ∧
    resolveTargetAppID (strL "default") (strL "app.other")
        = Except.ok ⟨strL "app.other", strL "other", strL "app"⟩ ∧
    resolveTargetAppID (strL "default") (strL "a.b.c")
        = Except.error (strL "invalid app id " ++ strL "a.b.c") :=
  ⟨(resolveTargetAppID_spec (strL "default") (strL "app")).1 (by decide),
   (resolveTargetAppID_spec (strL "default") (strL "app.other")).2.1
     (strL "app") (strL "other") (by decide) (by decide) (by decide),
   (resolveTargetAppID_spec (strL "default") (strL "a.b.c")).2.2 (by decide)⟩

/-! Peer discovery claims. -/

/-- C5: discovery against an enabled peer replaces the final colon-delimited
segment of the host:port address with the peer-reported port. -/
theorem getRemoteProxyAddress_enabled {Conn : Type} (env : Env Conn)
    (conn : Conn) (host portStr appID ns : Str) (p : Nat)
    (hp : (':' : Char) ∉ portStr)
    (hc : env.connectionCreatorFn (host ++ ':' :: portStr) appID ns
        false false false = Except.ok conn)
    (hs : env.GetProxyStatus conn = Except.ok ⟨true, p⟩) :
    getRemoteProxyAddress env (host ++ ':' :: portStr) appID ns
      = Except.ok (host ++ ':' :: natToStr p) := by
  unfold getRemoteProxyAddress
  simp only [hc, hs]
  have h1 : splitOn ':' (host ++ ':' :: portStr)
      = splitOn ':' host ++ [portStr] := by
    rw [splitOn_append, splitOn_not_mem _ _ hp]
  rw [h1, List.dropLast_concat,
    joinSep_append_singleton _ _ _ (splitOn_ne_nil ':' host), joinSep_splitOn]
  simp

/-- C5 witness: discovery on 10.0.0.5:3500 against a peer reporting enabled
on port 9000 yields 10.0.0.5:9000. -/
theorem getRemoteProxyAddress_enabled_witness :
    getRemoteProxyAddress envOk (strL "10.0.0.5:3500")
        (strL "other") (strL "default")
      = Except.ok (strL "10.0.0.5:9000") := by
  have h := getRemoteProxyAddress_enabled envOk () (strL "10.0.0.5")
    (strL "3500") (strL "other") (strL "default") 9000 (by decide) rfl rfl
  have e1 : strL "10.0.0.5" ++ ':' :: strL "3500" = strL "10.0.0.5:3500" := by
    decide
  have e2 : strL "10.0.0.5" ++ ':' :: natToStr 9000 = strL "10.0.0.5:9000" := by
    decide
  rw [e1, e2] at h
  exact h

/-! Startup status publication. -/

/-- C9 counterexample: it is false that, at the concrete configuration, every
setStatus action of the startup goroutine comes after the listenAndServe
action — the goroutine publishes the status strictly before binding the
listener. -/
theorem startNonBlocking_set_after_listen_counterexample :
    ¬ (∀ (i j : Nat) (st : ServerStatus) (port : Nat),
        (StartNonBlocking cfg0).get? i = some (StartEvent.setStatus st) →
        (StartNonBlocking cfg0).get? j
          = some (StartEvent.listenAndServe port) →
        j < i) := by
  intro hcl
  have h := hcl 0 1 ⟨true, 3500⟩ 3500 rfl rfl
  omega

/-- C9 amended: the startup goroutine publishes the status with enabled true
and the configured proxy port immediately BEFORE binding the HTTP listener,
and a registry that has not been written yet holds the zero value with
enabled false and port 0. -/
theorem startNonBlocking_status_publication (cfg : ServerConfig) :
    StartNonBlocking cfg
      = [StartEvent.setStatus ⟨true, cfg.ProxyPort⟩,
         StartEvent.listenAndServe cfg.ProxyPort] ∧
    NewStatusMonitor.Status = ⟨false, 0⟩ :=
  ⟨rfl, rfl⟩

/-! Dispatcher lemmas and claims. -/

theorem RoundTrip_reduce {Conn : Type} (cfg : ServerConfig) (env : Env Conn)
    (req : Request) (v : Str) (appID : resolvedAppID)
    (h1 : assocLookup req.headers destinationAppId = some [v])
    (h2 : v ≠ [])
    (h3 : resolveTargetAppID cfg.Namespace v = Except.ok appID) :
    RoundTrip cfg env req =
      if appID.AppID = cfg.AppID ∧ appID.Namespace = cfg.Namespace then
        roundTripLocal cfg env req
      else
        roundTripRemote cfg env req appID := by
  unfold RoundTrip
  simp only [h1]
  have hcond : ¬(([v] : List Str).length ≠ 1 ∨ ([v] : List Str).headD [] = []) := by
    simp [h2]
  rw [if_neg hcond]
  simp only [List.headD_cons, h3]

theorem roundTripRemote_resolveFail {Conn : Type} (cfg : ServerConfig)
    (env : Env Conn) (req : Request) (appID : resolvedAppID) (err : Str)
    (h : env.ResolveID ⟨appID.AppID, appID.Namespace, cfg.ProxyPort⟩
        = Except.error err) :
    roundTripRemote cfg env req appID =
      (Except.ok (respondWithError 400
        ⟨strL "ERR_UNRESOLVED_APPID",
         strL "the appid " ++ appID.Original
           ++ strL " cannot be resolved to a destination"⟩),
       [Event.resolve ⟨appID.AppID, appID.Namespace, cfg.ProxyPort⟩]) := by
  unfold roundTripRemote
  simp only [h]

theorem roundTripRemote_discoverFail {Conn : Type} (cfg : ServerConfig)
    (env : Env Conn) (req : Request) (appID : resolvedAppID)
    (addr err : Str)
    (h : env.ResolveID ⟨appID.AppID, appID.Namespace, cfg.ProxyPort⟩
        = Except.ok addr)
    (h2 : getRemoteProxyAddress env addr appID.AppID appID.Namespace
        = Except.error err) :
    roundTripRemote cfg env req appID =
      (Except.ok (respondWithError 500 ⟨strL "ERR_INTERNAL", strL "DERP"⟩),
       [Event.resolve ⟨appID.AppID, appID.Namespace, cfg.ProxyPort⟩,
        Event.discover addr]) := by
  unfold roundTripRemote
  simp only [h, h2]

theorem roundTripRemote_discoverOk {Conn : Type} (cfg : ServerConfig)
    (env : Env Conn) (req : Request) (appID : resolvedAppID)
    (addr addr2 : Str)
    (h : env.ResolveID ⟨appID.AppID, appID.Namespace, cfg.ProxyPort⟩
        = Except.ok addr)
    (h2 : getRemoteProxyAddress env addr appID.AppID appID.Namespace
        = Except.ok addr2) :
    roundTripRemote cfg env req appID =
      (env.defaultRoundTrip
         { req with urlScheme := strL "http", urlHost := addr2 },
       [Event.resolve ⟨appID.AppID, appID.Namespace, cfg.ProxyPort⟩,
        Event.discover addr,
        Event.forward { req with urlScheme := strL "http",
                                 urlHost := addr2 }]) := by
  unfold roundTripRemote
  simp only [h, h2]

/-- C3: a request parsed to the local app id and namespace is rewritten to
scheme http and host localhost:<ApplicationPort> (the loopback interface)
and handed to the generic transport; the trace contains one forward and no
name-resolution or discovery call. -/
theorem roundTrip_local_path {Conn : Type} (cfg : ServerConfig)
    (env : Env Conn) (req : Request) (v : Str) (appID : resolvedAppID)
    (h1 : assocLookup req.headers destinationAppId = some [v])
    (h2 : v ≠ [])
    (h3 : resolveTargetAppID cfg.Namespace v = Except.ok appID)
    (h4 : appID.AppID = cfg.AppID) (h5 : appID.Namespace = cfg.Namespace) :
    (RoundTrip cfg env req).1 = env.defaultRoundTrip (rwLocal cfg req) ∧
    (RoundTrip cfg env req).2 = [Event.forward (rwLocal cfg req)] ∧
    (rwLocal cfg req).urlScheme = strL "http" ∧
    (rwLocal cfg req).urlHost
      = strL "localhost:" ++ natToStr cfg.ApplicationPort ∧
    (RoundTrip cfg env req).2.all
      (fun e => !(isResolveEvent e || isDiscoverEvent e)) = true := by
  have h := RoundTrip_reduce cfg env req v appID h1 h2 h3
  rw [if_pos ⟨h4, h5⟩] at h
  rw [h]
  exact ⟨rfl, rfl, rfl, rfl, rfl⟩

/-- C3 witness: the concrete self-addressed request is forwarded to the
rewritten local target without resolution or discovery. -/
theorem roundTrip_local_path_witness :
    (RoundTrip cfg0 envOk reqSelf).1
        = envOk.defaultRoundTrip (rwLocal cfg0 reqSelf) ∧
    (RoundTrip cfg0 envOk reqSelf).2
        = [Event.forward (rwLocal cfg0 reqSelf)] ∧
    (rwLocal cfg0 reqSelf).urlHost = strL "localhost:8080" :=
  have h := roundTrip_local_path cfg0 envOk reqSelf (strL "self")
    ⟨strL "self", strL "default", strL "self"⟩
    (by decide) (by decide) (by decide) (by decide) (by decide)
  ⟨h.1, h.2.1, by rw [h.2.2.2.1]; decide⟩

/-- C4: on the remote path, name resolution is called exactly once and, when
it succeeds, discovery is called exactly once and strictly before any
forward event in the trace. -/
theorem roundTrip_remote_call_order {Conn : Type} (cfg : ServerConfig)
    (env : Env Conn) (req : Request) (v : Str) (appID : resolvedAppID)
    (h1 : assocLookup req.headers destinationAppId = some [v])
    (h2 : v ≠ [])
    (h3 : resolveTargetAppID cfg.Namespace v = Except.ok appID)
    (h4 : ¬(appID.AppID = cfg.AppID ∧ appID.Namespace = cfg.Namespace)) :
    (RoundTrip cfg env req).2.countP isResolveEvent = 1 ∧
    (∀ addr : Str,
      env.ResolveID ⟨appID.AppID, appID.Namespace, cfg.ProxyPort⟩
          = Except.ok addr →
      (RoundTrip cfg env req).2.countP isDiscoverEvent = 1 ∧
      ∀ (i : Nat) (e : Event), (RoundTrip cfg env req).2.get? i = some e →
        isForwardEvent e = true →
        ∃ (j : Nat) (d : Event), j < i ∧
          (RoundTrip cfg env req).2.get? j = some d ∧
          isDiscoverEvent d = true) := by
  have h := RoundTrip_reduce cfg env req v appID h1 h2 h3
  rw [if_neg h4] at h
  cases hres : env.ResolveID ⟨appID.AppID, appID.Namespace, cfg.ProxyPort⟩ with
  | error err =>
    rw [h, roundTripRemote_resolveFail cfg env req appID err hres]
    refine ⟨rfl, ?_⟩
    intro addr ha
    simp at ha
  | ok addr =>
    cases hdisc : getRemoteProxyAddress env addr appID.AppID appID.Namespace with
    | error err =>
      rw [h, roundTripRemote_discoverFail cfg env req appID addr err hres hdisc]
      refine ⟨rfl, ?_⟩
      intro addr' ha
      refine ⟨rfl, ?_⟩
      intro i e hi hf
      have hmem := List.get?_mem hi
      rcases List.mem_cons.mp hmem with rfl | hm
      · simp [isForwardEvent] at hf
      · rcases List.mem_cons.mp hm with rfl | hm2
        · simp [isForwardEvent] at hf
        · cases hm2
    | ok addr2 =>
      rw [h, roundTripRemote_discoverOk cfg env req appID addr addr2 hres hdisc]
      refine ⟨rfl, ?_⟩
      intro addr' ha
      refine ⟨rfl, ?_⟩
      intro i e hi hf
      refine ⟨1, Event.discover addr, ?_, rfl, rfl⟩
      cases i with
      | zero =>
        simp only [List.get?] at hi
        injection hi with hi
        subst hi
        simp [isForwardEvent] at hf
      | succ i' =>
        cases i' with
        | zero =>
          simp only [List.get?] at hi
          injection hi with hi
          subst hi
          simp [isForwardEvent] at hf
        | succ i'' => omega

/-- C4 witness: at the concrete remote-addressed request the trace shows one
resolution and one discovery. -/
theorem roundTrip_remote_call_order_witness :
    (RoundTrip cfg0 envOk reqOther).2.countP isResolveEvent = 1 ∧
    (RoundTrip cfg0 envOk reqOther).2.countP isDiscoverEvent = 1 :=
  have h := roundTrip_remote_call_order cfg0 envOk reqOther (strL "other")
    ⟨strL "other", strL "default", strL "other"⟩
    (by decide) (by decide) (by decide) (by decide)
  ⟨h.1, (h.2 (strL "10.0.0.5:3500") rfl).1⟩

/-- C6: when the peer answers the status RPC with enabled false, discovery
fails with the not-enabled error and the request's trace contains no forward
event. -/
theorem roundTrip_peer_disabled {Conn : Type} (cfg : ServerConfig)
    (env : Env Conn) (req : Request) (v : Str) (appID : resolvedAppID)
    (addr : Str) (conn : Conn) (p : Nat)
    (h1 : assocLookup req.headers destinationAppId = some [v])
    (h2 : v ≠ [])
    (h3 : resolveTargetAppID cfg.Namespace v = Except.ok appID)
    (h4 : ¬(appID.AppID = cfg.AppID ∧ appID.Namespace = cfg.Namespace))
    (h5 : env.ResolveID ⟨appID.AppID, appID.Namespace, cfg.ProxyPort⟩
        = Except.ok addr)
    (h6 : env.connectionCreatorFn addr appID.AppID appID.Namespace
        false false false = Except.ok conn)
    (h7 : env.GetProxyStatus conn = Except.ok ⟨false, p⟩) :
    getRemoteProxyAddress env addr appID.AppID appID.Namespace
      = Except.error (strL "remote proxy is not enabled") ∧
    (RoundTrip cfg env req).1
      = Except.ok (respondWithError 500
          ⟨strL "ERR_INTERNAL", strL "DERP"⟩) ∧
    (RoundTrip cfg env req).2.all (fun e => !(isForwardEvent e)) = true := by
  have hdisc : getRemoteProxyAddress env addr appID.AppID appID.Namespace
      = Except.error (strL "remote proxy is not enabled") := by
    unfold getRemoteProxyAddress
    simp only [h6, h7]
    rfl
  have h := RoundTrip_reduce cfg env req v appID h1 h2 h3
  rw [if_neg h4] at h
  rw [h, roundTripRemote_discoverFail cfg env req appID addr _ h5 hdisc]
  exact ⟨hdisc, rfl, rfl⟩

/-- C6 witness: the concrete remote-addressed request against a disabled peer
gets the synthesized internal-error response and is never forwarded. -/
theorem roundTrip_peer_disabled_witness :
    (RoundTrip cfg0 envDisabled reqOther).1
      = Except.ok (respondWithError 500
          ⟨strL "ERR_INTERNAL", strL "DERP"⟩) ∧
    (RoundTrip cfg0 envDisabled reqOther).2.all
      (fun e => !(isForwardEvent e)) = true :=
  have h := roundTrip_peer_disabled cfg0 envDisabled reqOther (strL "other")
    ⟨strL "other", strL "default", strL "other"⟩ (strL "10.0.0.5:3500") () 0
    (by decide) (by decide) (by decide) (by decide) rfl rfl rfl
  ⟨h.2.1, h.2.2⟩

/-- C7: a missing, empty-valued, zero-valued or multi-valued
Destination-App-Id header yields the synthesized ERR_MISSING_APPID response
with HTTP status 400 as a normal result, with an empty trace: no resolution,
discovery or forward call is made. -/
theorem roundTrip_missing_appid {Conn : Type} (cfg : ServerConfig)
    (env : Env Conn) (req : Request)
    (h : assocLookup req.headers destinationAppId = none ∨
         ∃ vs, assocLookup req.headers destinationAppId = some vs ∧
           (vs.length ≠ 1 ∨ vs.headD [] = [])) :
    (RoundTrip cfg env req).1 = Except.ok (respondWithError 400
      ⟨strL "ERR_MISSING_APPID",
       strL "the appid must be specified using the Destination-App-Id header"⟩) ∧
    (respondWithError 400
      ⟨strL "ERR_MISSING_APPID",
       strL "the appid must be specified using the Destination-App-Id header"⟩).StatusCode
      = 400 ∧
    (RoundTrip cfg env req).2 = [] := by
  rcases h with h | ⟨vs, hvs, hcond⟩
  · unfold RoundTrip
    simp only [h]
    simp [respondWithError]
  · unfold RoundTrip
    simp only [hvs]
    rw [if_pos hcond]
    simp [respondWithError]

/-- C7 witness: the concrete headerless request gets the 400
ERR_MISSING_APPID response and an empty trace. -/
theorem roundTrip_missing_appid_witness :
    (RoundTrip cfg0 envOk reqNoHeader).1 = Except.ok (respondWithError 400
      ⟨strL "ERR_MISSING_APPID",
       strL "the appid must be specified using the Destination-App-Id header"⟩) ∧
    (respondWithError 400
      ⟨strL "ERR_MISSING_APPID",
       strL "the appid must be specified using the Destination-App-Id header"⟩).StatusCode
      = 400 ∧
    (RoundTrip cfg0 envOk reqNoHeader).2 = [] :=
  roundTrip_missing_appid cfg0 envOk reqNoHeader (Or.inl rfl)

/-- C1 (evaluation at the failing input): when resolution succeeds and the
discovery RPC fails, the dispatcher returns the synthesized ERR_INTERNAL
response as a normal result — but its HTTP status is 400, not 500, because
respondWithError ignores its status-code argument and hardcodes 400. -/
theorem roundTrip_discovery_failure_http_status :
    (RoundTrip cfg0 envRpcFail reqOther).1
      = Except.ok (respondWithError 500
          ⟨strL "ERR_INTERNAL", strL "DERP"⟩) ∧
    (respondWithError 500 ⟨strL "ERR_INTERNAL", strL "DERP"⟩).StatusCode
      = 400 ∧
    (respondWithError 500 ⟨strL "ERR_INTERNAL", strL "DERP"⟩).Body
      = BodyV.json ⟨strL "ERR_INTERNAL", strL "DERP"⟩ :=
  ⟨by decide, rfl, rfl⟩
